import Mathlib

/-!
Verification of the query-fragment assembler in `builder.py`.

The Python module defines five fragment kinds (`TimeGrain`, `Slice`,
`Measure`, `Ratio`, `Filter`), each with a `to_sql` rendering method, and a
`QueryBuilder` that accumulates fragments and renders a five-clause SQL
SELECT statement via `compile`.

Everything is embedded shallowly: Python objects become structures, the
dynamically typed `Filter.value` becomes a small universe `PyVal` of Python
values, and methods that can raise become functions into `Except QueryError`.
-/

namespace QueryMD

/-- The errors the spec names for `Filter.to_sql` and `QueryBuilder.compile`.
In the Python source these are `ValueError`s (for the three filter failures)
and the attribute error hit when `time_grain` is `None`; the spec gives them
the four names below. -/
inductive QueryError where
  | invalidFilterValue
  | missingExpression
  | unsupportedFilterKind
  | missingTimeGrain
deriving DecidableEq, Repr

/-- Python's `sep.join(parts)`: the parts interleaved with the separator
(empty string on an empty list). -/
def pyJoin (sep : String) : List String → String
  | [] => ""
  | [x] => x
  | x :: y :: xs => x ++ sep ++ pyJoin sep (y :: xs)

/-- A small universe of Python values, enough to model the dynamically typed
`Filter.value` field (which the code only tests with `isinstance(_, list)`). -/
inductive PyVal where
  | none
  | str (s : String)
  | int (n : Int)
  | list (xs : List PyVal)

mutual
/-- Python's `str(v)`, as used by the f-string interpolation `f"'{v}'"`:
a string displays as itself, numbers via decimal notation, `None` as
`"None"`, and a list via the `repr` of its elements. -/
def PyVal.pyStr : PyVal → String
  | .none => "None"
  | .str s => s
  | .int n => toString n
  | .list xs => "[" ++ pyJoin ", " (pyReprList xs) ++ "]"

/-- Python's `repr` mapped over a list of values (string elements are
single-quoted). -/
def PyVal.pyReprList : List PyVal → List String
  | [] => []
  | .str s :: xs => ("'" ++ s ++ "'") :: pyReprList xs
  | .none :: xs => "None" :: pyReprList xs
  | .int n :: xs => toString n :: pyReprList xs
  | .list ys :: xs =>
      ("[" ++ pyJoin ", " (pyReprList ys) ++ "]") :: pyReprList xs
end

/-- Python class `TimeGrain`: column, grain and display label. -/
structure TimeGrain where
  column : String
  grain : String
  nice_name : String
deriving DecidableEq, Repr

/-- Method `TimeGrain.to_sql`. -/
def TimeGrain.to_sql (t : TimeGrain) : String :=
  "date_trunc('" ++ t.grain ++ "', " ++ t.column ++ ") AS \"" ++ t.nice_name ++ "\""

/-- Python class `Slice`: a dimension column with a display label. -/
structure Slice where
  column : String
  nice_name : String
deriving DecidableEq, Repr

/-- The `Slice.__init__` constructor: `nice_name=None` defaults, and the body
stores `nice_name or column`, so a falsy label (absent or the empty string)
falls back to the column name. -/
def Slice.init (column : String) (nice_name : Option String := Option.none) : Slice :=
  { column := column
    nice_name :=
      match nice_name with
      | Option.none => column
      | Option.some s => if s = "" then column else s }

/-- Method `Slice.to_sql`. -/
def Slice.to_sql (s : Slice) : String :=
  s.column ++ " AS \"" ++ s.nice_name ++ "\""

/-- Python class `Measure`: a raw SQL expression with a label. -/
structure Measure where
  expression : String
  nice_name : String
deriving DecidableEq, Repr

/-- Method `Measure.to_sql`. -/
def Measure.to_sql (m : Measure) : String :=
  m.expression ++ " AS \"" ++ m.nice_name ++ "\""

/-- Python class `Ratio`: numerator, denominator and label. -/
structure Ratio where
  numerator : String
  denominator : String
  nice_name : String
deriving DecidableEq, Repr

/-- Method `Ratio.to_sql`. -/
def Ratio.to_sql (r : Ratio) : String :=
  "(" ++ r.numerator ++ ") / NULLIF(" ++ r.denominator ++ ", 0) AS \"" ++ r.nice_name ++ "\""

/-- Python class `Filter`: its `value` is dynamically typed in Python,
`custom_expression` defaults to `None` (the empty string is also falsy and is
treated the same by `to_sql`). -/
structure Filter where
  column : String
  value : PyVal := PyVal.none
  filter_type : String := "list"
  custom_expression : Option String := Option.none

/-- Method `Filter.to_sql`: for `"list"` it checks only `isinstance(self.value, list)`
and then interpolates each element through `str`; for `"custom"` it requires a
truthy `custom_expression`; otherwise it raises. -/
def Filter.to_sql (f : Filter) : Except QueryError String :=
  if f.filter_type = "list" then
    match f.value with
    | PyVal.list xs =>
        Except.ok (f.column ++ " IN (" ++
          pyJoin ", " (xs.map (fun v => "'" ++ v.pyStr ++ "'")) ++ ")\n")
    | _ => Except.error QueryError.invalidFilterValue
  else if f.filter_type = "custom" then
    match f.custom_expression with
    | Option.some e =>
        if e = "" then Except.error QueryError.missingExpression else Except.ok e
    | Option.none => Except.error QueryError.missingExpression
  else
    Except.error QueryError.unsupportedFilterKind

/-- Python class `QueryBuilder`: the `components` dict becomes five fields. -/
structure QueryBuilder where
  table : String
  time_grain : Option TimeGrain := Option.none
  slices : List Slice := []
  measures : List Measure := []
  ratios : List Ratio := []
  filters : List Filter := []

/-- Constructor `QueryBuilder.__init__(table)`. -/
def QueryBuilder.init (table : String) : QueryBuilder := { table := table }

/-- Method `QueryBuilder.remove_component(nice_name)`: if the time grain is set and
its label matches, clear it and `return self` immediately; otherwise filter
`slices`, `measures` and `ratios` by label.  `filters` and `table` are never
touched. -/
def QueryBuilder.remove_component (b : QueryBuilder) (nice_name : String) : QueryBuilder :=
  match b.time_grain with
  | Option.some tg =>
      if tg.nice_name = nice_name then
        { b with time_grain := Option.none }
      else
        { b with
          slices := b.slices.filter (fun c => c.nice_name ≠ nice_name)
          measures := b.measures.filter (fun c => c.nice_name ≠ nice_name)
          ratios := b.ratios.filter (fun c => c.nice_name ≠ nice_name) }
  | Option.none =>
      { b with
        slices := b.slices.filter (fun c => c.nice_name ≠ nice_name)
        measures := b.measures.filter (fun c => c.nice_name ≠ nice_name)
        ratios := b.ratios.filter (fun c => c.nice_name ≠ nice_name) }

/-- Method `QueryBuilder.set_table_name`. -/
def QueryBuilder.set_table_name (b : QueryBuilder) (new_table_name : String) : QueryBuilder :=
  { b with table := new_table_name }

/-- Method `QueryBuilder.set_time_grain`. -/
def QueryBuilder.set_time_grain (b : QueryBuilder) (t : TimeGrain) : QueryBuilder :=
  { b with time_grain := Option.some t }

/-- Method `QueryBuilder.add_slice`. -/
def QueryBuilder.add_slice (b : QueryBuilder) (s : Slice) : QueryBuilder :=
  { b with slices := b.slices ++ [s] }

/-- Method `QueryBuilder.add_measure`, with the source's branch on whether the
measure list is empty (both arms append). -/
def QueryBuilder.add_measure (b : QueryBuilder) (m : Measure) : QueryBuilder :=
  if b.measures = [] then
    { b with measures := b.measures ++ [m] }
  else
    { b with measures := b.measures ++ [m] }

/-- Modelled from the spec (for the refinement claim about `add_measure`):
the branch-free version that "simply always appends". -/
def QueryBuilder.add_measure_plain (b : QueryBuilder) (m : Measure) : QueryBuilder :=
  { b with measures := b.measures ++ [m] }

/-- Method `QueryBuilder.add_ratio`. -/
def QueryBuilder.add_ratio (b : QueryBuilder) (r : Ratio) : QueryBuilder :=
  { b with ratios := b.ratios ++ [r] }

/-- Method `QueryBuilder.add_filter`. -/
def QueryBuilder.add_filter (b : QueryBuilder) (f : Filter) : QueryBuilder :=
  { b with filters := b.filters ++ [f] }

/-- The positional index list shared by GROUP BY and ORDER BY:
`[str(i + 2) for i in range(len(slices))]`. -/
def QueryBuilder.slice_positions (b : QueryBuilder) : List String :=
  (List.range b.slices.length).map (fun i => toString (i + 2))

/-- The list comprehension `[component.to_sql() for component in filters]`:
the first filter whose `to_sql` raises aborts the whole comprehension with
that error. -/
def renderFilters : List Filter → Except QueryError (List String)
  | [] => Except.ok []
  | f :: fs => do
      let s ← f.to_sql
      let rest ← renderFilters fs
      pure (s :: rest)

/-- Method `QueryBuilder.compile`: renders the five clauses.  In Python, accessing
`time_grain.to_sql()` when the grain is `None` raises before anything else is
evaluated (the spec's `MissingTimeGrain`); a filter whose `to_sql` raises
aborts the whole render with that error and no partial output. -/
def QueryBuilder.compile (b : QueryBuilder) : Except QueryError String :=
  match b.time_grain with
  | Option.none => Except.error QueryError.missingTimeGrain
  | Option.some tg => do
      let filter_sqls ← renderFilters b.filters
      let select_parts := tg.to_sql ::
        (b.slices.map Slice.to_sql ++ b.measures.map Measure.to_sql ++
         b.ratios.map Ratio.to_sql)
      let where_parts := "TRUE" :: filter_sqls
      let group_by_parts := "1" :: b.slice_positions
      let order_by_parts := "1 DESC" :: b.slice_positions
      let select_clause := "SELECT\n  " ++ pyJoin ",\n  " select_parts
      let from_clause := "FROM " ++ b.table
      let where_clause := "WHERE " ++ pyJoin " AND\n  " where_parts
      let group_by_clause := "GROUP BY " ++ pyJoin ", " group_by_parts
      let order_by_clause := "ORDER BY " ++ pyJoin ", " order_by_parts
      pure (pyJoin "\n"
        [select_clause, from_clause, where_clause, group_by_clause, order_by_clause])

/-- Method `QueryBuilder.compile` seen as a method call on the object state:
the same render, additionally returning the builder that `self` holds when the
method returns.  The body contains no assignment to any `self` field, so the
threaded state is the input builder unchanged. -/
def QueryBuilder.compileRun (b : QueryBuilder) :
    Except QueryError (String × QueryBuilder) :=
  match b.time_grain with
  | Option.none => Except.error QueryError.missingTimeGrain
  | Option.some tg => do
      let filter_sqls ← renderFilters b.filters
      let select_parts := tg.to_sql ::
        (b.slices.map Slice.to_sql ++ b.measures.map Measure.to_sql ++
         b.ratios.map Ratio.to_sql)
      let where_parts := "TRUE" :: filter_sqls
      let group_by_parts := "1" :: b.slice_positions
      let order_by_parts := "1 DESC" :: b.slice_positions
      let select_clause := "SELECT\n  " ++ pyJoin ",\n  " select_parts
      let from_clause := "FROM " ++ b.table
      let where_clause := "WHERE " ++ pyJoin " AND\n  " where_parts
      let group_by_clause := "GROUP BY " ++ pyJoin ", " group_by_parts
      let order_by_clause := "ORDER BY " ++ pyJoin ", " order_by_parts
      pure (pyJoin "\n"
        [select_clause, from_clause, where_clause, group_by_clause, order_by_clause], b)


/-! ## Helper lemmas -/

/-- Merging the string literals around a quoted-list separator. -/
theorem quote_sep_merge (R : String) :
    "'" ++ (", " ++ ("'" ++ R)) = "', '" ++ R := by
  cases R
  rfl

/-- Merging the literal that opens the IN-list with the first quote. -/
theorem in_open_merge (R : String) :
    " IN (" ++ ("'" ++ R) = " IN ('" ++ R := by
  cases R
  rfl

/-- Joining individually quoted strings equals quoting a join on a
quote-comma-quote separator (for a nonempty list). -/
theorem pyJoin_quote (v : String) (l : List String) :
    pyJoin ", " ((v :: l).map (fun s => "'" ++ s ++ "'")) =
      "'" ++ pyJoin "', '" (v :: l) ++ "'" := by
  induction l generalizing v with
  | nil => rfl
  | cons w l ih =>
      simp only [List.map_cons, pyJoin] at *
      rw [ih]
      simp only [String.append_assoc]
      rw [quote_sep_merge]

/-- A filter on a list that keeps every element is the identity. -/
theorem filter_all_kept {α : Type} (p : α → Bool) :
    ∀ l : List α, (∀ a ∈ l, p a = true) → l.filter p = l := by
  intro l h
  induction l with
  | nil => rfl
  | cons a l ih =>
      rw [List.filter_cons, if_pos (h a (List.mem_cons_self a l))]
      rw [ih (fun x hx => h x (List.mem_cons_of_mem a hx))]

/-- A list of filters that all render successfully renders successfully as a
whole. -/
theorem renderFilters_ok (l : List Filter)
    (h : ∀ f ∈ l, ∃ s, f.to_sql = Except.ok s) :
    ∃ ws, renderFilters l = Except.ok ws := by
  induction l with
  | nil => exact ⟨[], rfl⟩
  | cons f fs ih =>
      obtain ⟨s, hs⟩ := h f (List.mem_cons_self f fs)
      obtain ⟨ws, hws⟩ := ih (fun g hg => h g (List.mem_cons_of_mem f hg))
      exact ⟨s :: ws, by
        simp [renderFilters, hs, hws, Bind.bind, Except.bind, Pure.pure, Except.pure]⟩

/-! ## Claim theorems -/

/-- C1: for the builder with table "events", time grain
`TimeGrain("ts","day","day")`, one `Slice("country")`, one
`Measure("count(*)","total")` and one list `Filter("status", ["ok"])`,
`compile()` returns exactly the five-clause string of the spec's end-to-end
example, with the blank line after the filter coming from the list filter's
trailing newline. -/
theorem C1_end_to_end :
    (((((QueryBuilder.init "events").set_time_grain
          (TimeGrain.mk "ts" "day" "day")).add_slice
          (Slice.init "country")).add_measure
          (Measure.mk "count(*)" "total")).add_filter
          (Filter.mk "status" (PyVal.list [PyVal.str "ok"]) "list" Option.none)).compile
      = Except.ok ("SELECT\n  date_trunc('day', ts) AS \"day\",\n  country AS \"country\",\n  count(*) AS \"total\"\nFROM events\nWHERE TRUE AND\n  status IN ('ok')\n\nGROUP BY 1, 2\nORDER BY 1 DESC, 2") :=
  rfl

/-- C7: a list filter over a nonempty sequence of strings renders to the
column, the values joined inside single-quoted literals, and a trailing
newline; in particular `Filter("x", ["1","2"])` renders to
`x IN ('1', '2')` plus a newline. -/
theorem C7_list_filter_render (c v : String) (vs : List String) :
    (Filter.mk c (PyVal.list ((v :: vs).map PyVal.str)) "list" Option.none).to_sql
        = Except.ok (c ++ " IN ('" ++ pyJoin "', '" (v :: vs) ++ "')\n") ∧
    (Filter.mk "x" (PyVal.list [PyVal.str "1", PyVal.str "2"]) "list" Option.none).to_sql
        = Except.ok "x IN ('1', '2')\n" := by
  constructor
  · have hmap : ((v :: vs).map PyVal.str).map (fun w => "'" ++ w.pyStr ++ "'")
        = (v :: vs).map (fun s => "'" ++ s ++ "'") := by
      simp [List.map_map, Function.comp, PyVal.pyStr]
    have hclose : ("'" : String) ++ ")\n" = "')\n" := rfl
    simp only [Filter.to_sql, if_true]
    congr 1
    rw [hmap, pyJoin_quote]
    simp only [String.append_assoc]
    rw [hclose, in_open_merge]
  · rfl

/-- C8: a ratio renders to its numerator in parentheses, divided by a
`NULLIF`-guarded denominator, aliased to its double-quoted label; in
particular `Ratio("a","b","r")` renders the spec's example string. -/
theorem C8_ratio_render (a b r : String) :
    (Ratio.mk a b r).to_sql
        = "(" ++ a ++ ") / NULLIF(" ++ b ++ ", 0) AS \"" ++ r ++ "\"" ∧
    (Ratio.mk "a" "b" "r").to_sql = "(a) / NULLIF(b, 0) AS \"r\"" :=
  ⟨rfl, rfl⟩

/-- C9: `add_measure`, whose body branches on whether the measure list is
empty but appends in both arms, is equal as a state transformer to the
branch-free plain append. -/
theorem C9_add_measure_refines_plain_append (b : QueryBuilder) (m : Measure) :
    b.add_measure m = b.add_measure_plain m := by
  unfold QueryBuilder.add_measure QueryBuilder.add_measure_plain
  split <;> rfl

/-- C10: constructing a `Slice` with an explicitly empty label falls back to
the column name (the Python `or` treats the empty string as falsy), so the
result both renders as `column AS "column"` and is indistinguishable from a
slice built with no label at all. -/
theorem C10_empty_label_fallback (c : String) :
    Slice.init c (Option.some "") = Slice.init c Option.none ∧
    (Slice.init c (Option.some "")).to_sql = c ++ " AS \"" ++ c ++ "\"" := by
  constructor
  · simp [Slice.init]
  · simp [Slice.init, Slice.to_sql]

/-- C4 counterexample: a list filter whose value is a list of non-string
elements renders successfully (the code only checks `isinstance(value, list)`
and interpolates each element through `str`), so the claim that such a value
must fail with `InvalidFilterValue` is false. -/
theorem C4_counterexample :
    (Filter.mk "x" (PyVal.list [PyVal.int 1, PyVal.int 2]) "list" Option.none).to_sql
      = Except.ok "x IN ('1', '2')\n" :=
  rfl

/-- C4 (amended): a list filter fails with `InvalidFilterValue` if and only if
its value is not a Python list at all; any list — whatever the element types —
renders successfully with each element interpolated through `str`. -/
theorem C4_list_check_amended (f : Filter) (h : f.filter_type = "list") :
    (∀ xs, f.value = PyVal.list xs →
        f.to_sql = Except.ok (f.column ++ " IN (" ++
          pyJoin ", " (xs.map (fun w => "'" ++ w.pyStr ++ "'")) ++ ")\n")) ∧
    ((∀ xs, f.value ≠ PyVal.list xs) →
        f.to_sql = Except.error QueryError.invalidFilterValue) := by
  constructor
  · intro xs hxs
    simp only [Filter.to_sql, h, if_true, hxs]
  · intro hnot
    simp only [Filter.to_sql, h, if_true]

/-- C4 witness: the amended theorem applied to one filter holding a proper
list and one holding a bare integer. -/
theorem C4_list_check_amended_witness :
    (Filter.mk "x" (PyVal.list [PyVal.str "a"]) "list" Option.none).to_sql
        = Except.ok ("x" ++ " IN (" ++
            pyJoin ", " ([PyVal.str "a"].map (fun w => "'" ++ w.pyStr ++ "'")) ++ ")\n") ∧
    (Filter.mk "y" (PyVal.int 3) "list" Option.none).to_sql
        = Except.error QueryError.invalidFilterValue :=
  ⟨(C4_list_check_amended (Filter.mk "x" (PyVal.list [PyVal.str "a"]) "list" Option.none)
      rfl).1 [PyVal.str "a"] rfl,
   (C4_list_check_amended (Filter.mk "y" (PyVal.int 3) "list" Option.none)
      rfl).2 (fun xs hxs => by cases hxs)⟩

/-- C2 counterexample: on a builder whose time grain and single slice share
the label "x", `remove_component "x"` clears the time grain and returns
immediately, leaving the slice with the matching label in place — so the
removal is not independent of the time-grain match. -/
theorem C2_counterexample :
    ((QueryBuilder.mk "t" (Option.some (TimeGrain.mk "ts" "day" "x"))
        [Slice.mk "c" "x"] [] [] []).remove_component "x").slices
      = [Slice.mk "c" "x"] ∧
    ((QueryBuilder.mk "t" (Option.some (TimeGrain.mk "ts" "day" "x"))
        [Slice.mk "c" "x"] [] [] []).remove_component "x").time_grain
      = Option.none :=
  ⟨rfl, rfl⟩

/-- C2 (amended): when the time grain is set and its label matches,
`remove_component` only clears the time grain (early return); only otherwise
does it remove every slice, measure and ratio whose label matches.  Filters
and the table are untouched in every case, and when nothing matches anywhere
the state is unchanged and no error is raised. -/
theorem C2_remove_component_amended (b : QueryBuilder) (L : String) :
    (∀ tg, b.time_grain = Option.some tg → tg.nice_name = L →
        b.remove_component L = { b with time_grain := Option.none }) ∧
    ((∀ tg, b.time_grain = Option.some tg → tg.nice_name ≠ L) →
        b.remove_component L =
          { b with
            slices := b.slices.filter (fun c => c.nice_name ≠ L)
            measures := b.measures.filter (fun c => c.nice_name ≠ L)
            ratios := b.ratios.filter (fun c => c.nice_name ≠ L) }) ∧
    (b.remove_component L).filters = b.filters ∧
    (b.remove_component L).table = b.table ∧
    ((∀ tg, b.time_grain = Option.some tg → tg.nice_name ≠ L) →
      (∀ s ∈ b.slices, s.nice_name ≠ L) →
      (∀ m ∈ b.measures, m.nice_name ≠ L) →
      (∀ r ∈ b.ratios, r.nice_name ≠ L) →
      b.remove_component L = b) := by
  obtain ⟨tb, gb, sb, mb, rb, fb⟩ := b
  refine ⟨?_, ?_, ?_, ?_, ?_⟩
  · intro tg htg hname
    cases gb with
    | none => cases htg
    | some tg0 =>
        cases htg
        simp only [QueryBuilder.remove_component]
        rw [if_pos hname]
  · intro hno
    cases gb with
    | none => simp only [QueryBuilder.remove_component]
    | some tg0 =>
        simp only [QueryBuilder.remove_component]
        rw [if_neg (hno tg0 rfl)]
  · cases gb with
    | none => rfl
    | some tg0 =>
        simp only [QueryBuilder.remove_component]
        split <;> rfl
  · cases gb with
    | none => rfl
    | some tg0 =>
        simp only [QueryBuilder.remove_component]
        split <;> rfl
  · intro hg hs hm hr
    cases gb with
    | none =>
        simp only [QueryBuilder.remove_component]
        rw [filter_all_kept _ _ (fun a ha => decide_eq_true (hs a ha)),
            filter_all_kept _ _ (fun a ha => decide_eq_true (hm a ha)),
            filter_all_kept _ _ (fun a ha => decide_eq_true (hr a ha))]
    | some tg0 =>
        simp only [QueryBuilder.remove_component]
        rw [if_neg (hg tg0 rfl)]
        rw [filter_all_kept _ _ (fun a ha => decide_eq_true (hs a ha)),
            filter_all_kept _ _ (fun a ha => decide_eq_true (hm a ha)),
            filter_all_kept _ _ (fun a ha => decide_eq_true (hr a ha))]

/-- C2 witness: the amended theorem applied to a builder whose grain label
matches and to a grainless builder on which nothing matches. -/
theorem C2_remove_component_amended_witness :
    (QueryBuilder.mk "t" (Option.some (TimeGrain.mk "ts" "day" "g"))
        [] [] [] []).remove_component "g"
      = { QueryBuilder.mk "t" (Option.some (TimeGrain.mk "ts" "day" "g"))
            [] [] [] [] with time_grain := Option.none } ∧
    (QueryBuilder.mk "t" Option.none [] [] [] []).remove_component "zzz"
      = QueryBuilder.mk "t" Option.none [] [] [] [] :=
  ⟨(C2_remove_component_amended
      (QueryBuilder.mk "t" (Option.some (TimeGrain.mk "ts" "day" "g")) [] [] [] [])
      "g").1 (TimeGrain.mk "ts" "day" "g") rfl rfl,
   (C2_remove_component_amended (QueryBuilder.mk "t" Option.none [] [] [] [])
      "zzz").2.2.2.2
      (fun tg htg => by cases htg)
      (fun s hmem => absurd hmem (List.not_mem_nil s))
      (fun m hmem => absurd hmem (List.not_mem_nil m))
      (fun r hmem => absurd hmem (List.not_mem_nil r))⟩

/-- The explicit five-clause form of a successful `compile`, given a set time
grain and successfully rendered filters. -/
theorem compile_ok_form (b : QueryBuilder) (tg : TimeGrain) (ws : List String)
    (htg : b.time_grain = Option.some tg)
    (hws : renderFilters b.filters = Except.ok ws) :
    b.compile = Except.ok (pyJoin "\n"
      ["SELECT\n  " ++ pyJoin ",\n  " (tg.to_sql ::
          (b.slices.map Slice.to_sql ++ b.measures.map Measure.to_sql ++
           b.ratios.map Ratio.to_sql)),
       "FROM " ++ b.table,
       "WHERE " ++ pyJoin " AND\n  " ("TRUE" :: ws),
       "GROUP BY " ++ pyJoin ", " ("1" :: b.slice_positions),
       "ORDER BY " ++ pyJoin ", " ("1 DESC" :: b.slice_positions)]) := by
  simp only [QueryBuilder.compile, htg, hws, Bind.bind, Except.bind, Pure.pure,
    Except.pure]

/-- An assembler used to instantiate the hypotheses of several theorems. -/
def exampleBuilder : QueryBuilder :=
  { table := "t", time_grain := Option.some (TimeGrain.mk "ts" "day" "d"),
    slices := [Slice.mk "c" "c"] }

/-- C3: `compile` fails with `MissingTimeGrain`, returning no string, exactly
when no time grain is set; with a time grain set it succeeds whatever the
other fragment sequences hold, provided every filter renders successfully. -/
theorem C3_compile_requires_time_grain (b : QueryBuilder) :
    (b.time_grain = Option.none →
        b.compile = Except.error QueryError.missingTimeGrain) ∧
    (b.time_grain ≠ Option.none →
        (∀ f ∈ b.filters, ∃ s, f.to_sql = Except.ok s) →
        ∃ q, b.compile = Except.ok q) := by
  constructor
  · intro h
    simp only [QueryBuilder.compile, h]
  · intro hg hf
    cases htg : b.time_grain with
    | none => exact absurd htg hg
    | some tg =>
        obtain ⟨ws, hws⟩ := renderFilters_ok b.filters hf
        exact ⟨_, compile_ok_form b tg ws htg hws⟩

/-- C3 witness: the theorem applied to a grainless builder and to
`exampleBuilder`, whose grain is set and whose filter list is empty. -/
theorem C3_compile_requires_time_grain_witness :
    (QueryBuilder.init "t").compile = Except.error QueryError.missingTimeGrain ∧
    (∃ q, exampleBuilder.compile = Except.ok q) :=
  ⟨(C3_compile_requires_time_grain (QueryBuilder.init "t")).1 rfl,
   (C3_compile_requires_time_grain exampleBuilder).2
     (fun hc => Option.noConfusion hc)
     (fun f hf => absurd hf (List.not_mem_nil f))⟩

/-- C5: in every successful `compile` output the GROUP BY positions are "1"
followed by 2, 3, ..., (1+N) and the ORDER BY positions are "1 DESC" followed
by the same indices, where N counts only the slices; both lists have length
1 + N whatever the measures and ratios, and with no slices the clauses reduce
to `GROUP BY 1` and `ORDER BY 1 DESC`. -/
theorem C5_group_order_positions (b : QueryBuilder) (q : String)
    (h : b.compile = Except.ok q) :
    (∃ sel whr, q = pyJoin "\n" [sel, "FROM " ++ b.table, whr,
        "GROUP BY " ++ pyJoin ", "
          ("1" :: (List.range b.slices.length).map (fun i => toString (i + 2))),
        "ORDER BY " ++ pyJoin ", "
          ("1 DESC" :: (List.range b.slices.length).map (fun i => toString (i + 2)))]) ∧
    ("1" :: (List.range b.slices.length).map (fun i => toString (i + 2))).length
        = 1 + b.slices.length ∧
    ("1 DESC" :: (List.range b.slices.length).map (fun i => toString (i + 2))).length
        = 1 + b.slices.length ∧
    (b.slices = [] →
      "GROUP BY " ++ pyJoin ", "
          ("1" :: (List.range b.slices.length).map (fun i => toString (i + 2)))
        = "GROUP BY 1" ∧
      "ORDER BY " ++ pyJoin ", "
          ("1 DESC" :: (List.range b.slices.length).map (fun i => toString (i + 2)))
        = "ORDER BY 1 DESC") := by
  refine ⟨?_, ?_, ?_, ?_⟩
  · cases htg : b.time_grain with
    | none => simp [QueryBuilder.compile, htg] at h
    | some tg =>
        cases hrf : renderFilters b.filters with
        | error e => simp [QueryBuilder.compile, htg, hrf, Bind.bind, Except.bind] at h
        | ok ws =>
            rw [compile_ok_form b tg ws htg hrf] at h
            refine ⟨"SELECT\n  " ++ pyJoin ",\n  " (tg.to_sql ::
                (b.slices.map Slice.to_sql ++ b.measures.map Measure.to_sql ++
                 b.ratios.map Ratio.to_sql)),
              "WHERE " ++ pyJoin " AND\n  " ("TRUE" :: ws), ?_⟩
            rw [← Except.ok.inj h]
            simp only [QueryBuilder.slice_positions]
  · simp [List.length_map, List.length_range, Nat.add_comm]
  · simp [List.length_map, List.length_range, Nat.add_comm]
  · intro hsl
    rw [hsl]
    exact ⟨rfl, rfl⟩

/-- C5 witness: the theorem applied to `exampleBuilder`, whose compiled query
is the concrete string below. -/
theorem C5_group_order_positions_witness :
    (∃ sel whr,
        "SELECT\n  date_trunc('day', ts) AS \"d\",\n  c AS \"c\"\nFROM t\nWHERE TRUE\nGROUP BY 1, 2\nORDER BY 1 DESC, 2"
          = pyJoin "\n" [sel, "FROM " ++ exampleBuilder.table, whr,
              "GROUP BY " ++ pyJoin ", "
                ("1" :: (List.range exampleBuilder.slices.length).map
                  (fun i => toString (i + 2))),
              "ORDER BY " ++ pyJoin ", "
                ("1 DESC" :: (List.range exampleBuilder.slices.length).map
                  (fun i => toString (i + 2)))]) ∧
    ("1" :: (List.range exampleBuilder.slices.length).map
        (fun i => toString (i + 2))).length = 1 + exampleBuilder.slices.length ∧
    ("1 DESC" :: (List.range exampleBuilder.slices.length).map
        (fun i => toString (i + 2))).length = 1 + exampleBuilder.slices.length ∧
    (exampleBuilder.slices = [] →
      "GROUP BY " ++ pyJoin ", "
          ("1" :: (List.range exampleBuilder.slices.length).map
            (fun i => toString (i + 2)))
        = "GROUP BY 1" ∧
      "ORDER BY " ++ pyJoin ", "
          ("1 DESC" :: (List.range exampleBuilder.slices.length).map
            (fun i => toString (i + 2)))
        = "ORDER BY 1 DESC") :=
  C5_group_order_positions exampleBuilder _ rfl

/-- C6: `compile` seen as a method call returns the builder state unchanged,
so a second call with no intervening mutation returns the identical string
(and `compile` itself reports the same successful output). -/
theorem C6_compile_nondestructive (b : QueryBuilder) (q : String)
    (b2 : QueryBuilder) (h : b.compileRun = Except.ok (q, b2)) :
    b2 = b ∧ b.compile = Except.ok q ∧ b2.compileRun = Except.ok (q, b2) := by
  cases htg : b.time_grain with
  | none => simp [QueryBuilder.compileRun, htg] at h
  | some tg =>
      cases hrf : renderFilters b.filters with
      | error e => simp [QueryBuilder.compileRun, htg, hrf, Bind.bind, Except.bind] at h
      | ok ws =>
          simp only [QueryBuilder.compileRun, htg, hrf, Bind.bind, Except.bind,
            Pure.pure, Except.pure] at h
          cases h
          refine ⟨rfl, compile_ok_form b tg ws htg hrf, ?_⟩
          simp only [QueryBuilder.compileRun, htg, hrf, Bind.bind, Except.bind,
            Pure.pure, Except.pure]

/-- C6 witness: the theorem applied to `exampleBuilder` and its concrete
compiled string. -/
theorem C6_compile_nondestructive_witness :
    exampleBuilder = exampleBuilder ∧
    exampleBuilder.compile = Except.ok
      "SELECT\n  date_trunc('day', ts) AS \"d\",\n  c AS \"c\"\nFROM t\nWHERE TRUE\nGROUP BY 1, 2\nORDER BY 1 DESC, 2" ∧
    exampleBuilder.compileRun = Except.ok
      ("SELECT\n  date_trunc('day', ts) AS \"d\",\n  c AS \"c\"\nFROM t\nWHERE TRUE\nGROUP BY 1, 2\nORDER BY 1 DESC, 2",
       exampleBuilder) :=
  C6_compile_nondestructive exampleBuilder _ exampleBuilder rfl

end QueryMD
